import Mathlib

/-!
# Startup of the harvester server (main.go)

A shallow embedding of `main`, the application action, `initLogs` and `run`
of main.go, together with the part of the command-line library (urfave/cli,
version 1) that decides what `Value`, `EnvVar`, `Destination` and `Required`
of a flag declaration mean.

Effects are made explicit: every function returns the list of operations it
performs on its collaborators (the `Event`s, in program order), the state of
the process-wide logger, and its Go return value.
-/

namespace Harvester

/-! ## Data model -/

/-- Modelled from the spec: config.Options is declared in pkg/config, which is
not among the sources. The record holds exactly the fields that main.go binds
to a flag through `Destination: &options.X` (the StartupOptions of the spec).
Go `int` fields are integers; no arithmetic is performed on them. -/
structure Options where
  Debug : Bool
  Trace : Bool
  Threadiness : Int
  HTTPListenPort : Int
  HTTPSListenPort : Int
  Namespace : String
  ImageStorageEndpoint : String
  ImageStorageAccessKey : String
  ImageStorageSecretKey : String
  SkipAuthentication : Bool
  deriving DecidableEq, Repr

/-- The zero value of `var options config.Options`. -/
def Options.zero : Options :=
  { Debug := false, Trace := false, Threadiness := 0, HTTPListenPort := 0,
    HTTPSListenPort := 0, Namespace := "", ImageStorageEndpoint := "",
    ImageStorageAccessKey := "", ImageStorageSecretKey := "",
    SkipAuthentication := false }

/-- How a typed (integer or boolean) flag is supplied by one source, the
command line or the environment variable: not at all, with a text that does
not parse as the flag's type, or with a value. -/
inductive Arg (α : Type) where
  | unset : Arg α
  | invalid : Arg α
  | given (v : α) : Arg α
  deriving DecidableEq, Repr

/-- The startup input of the process: for every flag declared in `app.Flags`
what the command line supplies (`...Flag`) and what the flag's environment
variable supplies (`...Env`), plus the two flags the library adds itself
(help and version). String flags accept every text, so they are `Option`s.
The command line carries flags only (no positional arguments). -/
structure StartupInput where
  kubeconfigFlag : Option String
  kubeconfigEnv : Option String
  debugFlag : Arg Bool
  debugEnv : Arg Bool
  traceFlag : Arg Bool
  traceEnv : Arg Bool
  threadinessFlag : Arg Int
  threadinessEnv : Arg Int
  httpPortFlag : Arg Int
  httpPortEnv : Arg Int
  httpsPortFlag : Arg Int
  httpsPortEnv : Arg Int
  namespaceFlag : Option String
  namespaceEnv : Option String
  imageStorageEndpointFlag : Option String
  imageStorageEndpointEnv : Option String
  imageStorageAccessKeyFlag : Option String
  imageStorageAccessKeyEnv : Option String
  imageStorageSecretKeyFlag : Option String
  imageStorageSecretKeyEnv : Option String
  skipAuthenticationFlag : Arg Bool
  skipAuthenticationEnv : Arg Bool
  authenticationModeFlag : Option String
  authenticationModeEnv : Option String
  profileListenAddressFlag : Option String
  help : Bool
  version : Bool
  deriving DecidableEq, Repr

/-- The variables the flags write to: the package-level `KubeConfig` and
`profileAddress`, and the local `options` of main. -/
structure Globals where
  KubeConfig : String
  profileAddress : String
  options : Options
  deriving DecidableEq, Repr

/-- The logrus levels, in the order of the library (Panic = 0 .. Trace = 6). -/
inductive Level where
  | panic | fatal | error | warn | info | debug | trace
  deriving DecidableEq, Repr

/-- Numeric value of a logrus level; a higher value is more verbose. -/
def Level.toNat : Level → Nat
  | .panic => 0
  | .fatal => 1
  | .error => 2
  | .warn => 3
  | .info => 4
  | .debug => 5
  | .trace => 6

/-- Text of a level under the `%v` verb (`Level.String`). -/
def Level.text : Level → String
  | .panic => "panic"
  | .fatal => "fatal"
  | .error => "error"
  | .warn => "warning"
  | .info => "info"
  | .debug => "debug"
  | .trace => "trace"

/-- The log formatters main.go can install, and the library default. -/
inductive Formatter where
  | default | simple | text | json
  deriving DecidableEq, Repr

/-- Where the standard logger writes. -/
inductive Output where
  | stderr | stdout
  deriving DecidableEq, Repr

/-- The process-wide state of the logrus standard logger. -/
structure Logger where
  formatter : Formatter
  out : Output
  level : Level
  deriving DecidableEq, Repr

/-- The standard logger as the library creates it. -/
def Logger.initial : Logger :=
  { formatter := .default, out := .stderr, level := .info }

/-- A context value: `context.Background()` or the context returned by
`signals.SetupSignalHandler` for a parent. -/
inductive GoContext where
  | background : GoContext
  | signalHandled (parent : GoContext) : GoContext
  deriving DecidableEq, Repr

/-- Handle of a cluster configuration returned by `server.GetConfig`. -/
structure RestConfig where
  id : Nat
  deriving DecidableEq, Repr

/-- Handle of a server returned by `server.New`. -/
structure HarvesterServer where
  id : Nat
  deriving DecidableEq, Repr

/-- Errors returned by `app.Run`. -/
inductive AppError where
  | envValue (flag : String) : AppError
  | usage : AppError
  | requiredFlags (missing : List String) : AppError
  | action (msg : String) : AppError
  deriving DecidableEq, Repr

/-- The operations the program performs on the outside world, as they appear
in a trace. `cancelContext` stands for a call of the cancel function of the
root context: `signals.SetupSignalHandler` hands back the context only, and no
statement of main.go produces this event. `fatal` is `logrus.Fatal(err)`: the
error is logged and the process ends with exit code 1. -/
inductive Event where
  | showAppHelp : Event
  | showVersion : Event
  | goProfiler (addr : String) : Event
  | log (level : Level) (msg : String) : Event
  | setupSignalHandler (parent : GoContext) : Event
  | getConfig (path : String) : Event
  | serverNew (ctx : GoContext) (cfg : RestConfig) (options : Options) : Event
  | listenAndServe (srv : HarvesterServer) (options : Options) : Event
  | cancelContext : Event
  | fatal (err : AppError) : Event
  deriving DecidableEq, Repr

/-- The collaborators of main.go with the outcome each of them produces:
`server.GetConfig`, `server.New`, the `ListenAndServe` method of the server
(`none` is a nil error), and `http.ListenAndServe` of the profiler (`none`:
it keeps serving and never returns; `some e`: it returned the error `e`). -/
structure Collaborators where
  GetConfig : String → Except String RestConfig
  New : GoContext → RestConfig → Options → Except String HarvesterServer
  ListenAndServe : HarvesterServer → Options → Option String
  httpListenAndServe : String → Option String

/-- What a piece of the program leaves behind: the logger state, the
operations performed in program order, the lines the profiler goroutine
writes with the standard `log` package once `http.ListenAndServe` has returned,
and the returned error (`none` is nil). -/
structure Outcome where
  logger : Logger
  trace : List Event
  stdlog : List String
  result : Option String
  deriving DecidableEq, Repr

/-- Result of `app.Run` together with its effects. -/
structure AppOutcome where
  logger : Logger
  trace : List Event
  stdlog : List String
  result : Option AppError
  deriving DecidableEq, Repr

/-- The outcome of the action as `app.Run` returns it. -/
def Outcome.toApp (r : Outcome) : AppOutcome :=
  { logger := r.logger, trace := r.trace, stdlog := r.stdlog,
    result := r.result.map AppError.action }

/-! ## The command-line library: applying flag declarations -/

/-- Registration of a StringFlag: the environment variable, when set,
replaces `Value`; the result is stored in the destination. -/
def envString (Value : String) (env : Option String) : String :=
  match env with
  | some v => v
  | none => Value

/-- Registration of an IntFlag: a set environment variable must parse as an
integer and then replaces `Value`. -/
def envInt (name : String) (Value : Int) : Arg Int → Except AppError Int
  | .unset => .ok Value
  | .given v => .ok v
  | .invalid => .error (.envValue name)

/-- Registration of a BoolFlag: the default is false; a set environment
variable must parse as a boolean. -/
def envBool (name : String) : Arg Bool → Except AppError Bool
  | .unset => .ok false
  | .given v => .ok v
  | .invalid => .error (.envValue name)

/-- The flag set of `app.Flags`: every flag is registered in declaration
order with its default (after the environment variable) written to its
destination; the first environment value that does not parse is an error.
The flag authentication-mode has no destination, so nothing is written for
it; profile-listen-address has no environment variable, and its registration
replaces the initial value localhost:6060 of `profileAddress` by the declared
`Value`. -/
def newFlagSet (inp : StartupInput) : Except AppError Globals :=
  match envBool "debug" inp.debugEnv with
  | .error e => .error e
  | .ok debug =>
  match envBool "trace" inp.traceEnv with
  | .error e => .error e
  | .ok trace =>
  match envInt "threadiness" 10 inp.threadinessEnv with
  | .error e => .error e
  | .ok threadiness =>
  match envInt "http-port" 8080 inp.httpPortEnv with
  | .error e => .error e
  | .ok httpPort =>
  match envInt "https-port" 8443 inp.httpsPortEnv with
  | .error e => .error e
  | .ok httpsPort =>
  match envBool "skip-authentication" inp.skipAuthenticationEnv with
  | .error e => .error e
  | .ok skip =>
    .ok { KubeConfig := envString "" inp.kubeconfigEnv,
          profileAddress := envString "127.0.0.1:6060" none,
          options :=
            { Debug := debug, Trace := trace, Threadiness := threadiness,
              HTTPListenPort := httpPort, HTTPSListenPort := httpsPort,
              Namespace := envString "" inp.namespaceEnv,
              ImageStorageEndpoint := envString "" inp.imageStorageEndpointEnv,
              ImageStorageAccessKey := envString "" inp.imageStorageAccessKeyEnv,
              ImageStorageSecretKey := envString "" inp.imageStorageSecretKeyEnv,
              SkipAuthentication := skip } }

/-- Parsing a string flag from the command line: a supplied value overwrites
the destination. -/
def setString (cur : String) : Option String → String
  | some v => v
  | none => cur

/-- Parsing a typed flag from the command line: a supplied value overwrites
the destination, a text that does not parse is a usage error. -/
def setTyped {α : Type} (cur : α) : Arg α → Except AppError α
  | .unset => .ok cur
  | .given v => .ok v
  | .invalid => .error .usage

/-- Parsing the command line over the registered flag set. -/
def parseArgs (inp : StartupInput) (g : Globals) : Except AppError Globals :=
  match setTyped g.options.Debug inp.debugFlag with
  | .error e => .error e
  | .ok debug =>
  match setTyped g.options.Trace inp.traceFlag with
  | .error e => .error e
  | .ok trace =>
  match setTyped g.options.Threadiness inp.threadinessFlag with
  | .error e => .error e
  | .ok threadiness =>
  match setTyped g.options.HTTPListenPort inp.httpPortFlag with
  | .error e => .error e
  | .ok httpPort =>
  match setTyped g.options.HTTPSListenPort inp.httpsPortFlag with
  | .error e => .error e
  | .ok httpsPort =>
  match setTyped g.options.SkipAuthentication inp.skipAuthenticationFlag with
  | .error e => .error e
  | .ok skip =>
    .ok { KubeConfig := setString g.KubeConfig inp.kubeconfigFlag,
          profileAddress := setString g.profileAddress inp.profileListenAddressFlag,
          options :=
            { Debug := debug, Trace := trace, Threadiness := threadiness,
              HTTPListenPort := httpPort, HTTPSListenPort := httpsPort,
              Namespace := setString g.options.Namespace inp.namespaceFlag,
              ImageStorageEndpoint :=
                setString g.options.ImageStorageEndpoint inp.imageStorageEndpointFlag,
              ImageStorageAccessKey :=
                setString g.options.ImageStorageAccessKey inp.imageStorageAccessKeyFlag,
              ImageStorageSecretKey :=
                setString g.options.ImageStorageSecretKey inp.imageStorageSecretKeyFlag,
              SkipAuthentication := skip } }

/-- The library's `IsSet`: a flag counts as set when it occurs on the command
line or its environment variable exists, whatever the value. -/
def isSet (flag env : Option String) : Bool :=
  flag.isSome || env.isSome

/-- The names of the flags declared `Required: true` that are not set, in
declaration order. -/
def missingRequired (inp : StartupInput) : List String :=
  (if isSet inp.namespaceFlag inp.namespaceEnv then [] else ["namespace"]) ++
  (if isSet inp.imageStorageEndpointFlag inp.imageStorageEndpointEnv then []
   else ["image-storage-endpoint"]) ++
  (if isSet inp.imageStorageAccessKeyFlag inp.imageStorageAccessKeyEnv then []
   else ["image-storage-access-key"]) ++
  (if isSet inp.imageStorageSecretKeyFlag inp.imageStorageSecretKeyEnv then []
   else ["image-storage-secret-key"])

/-! ## main.go -/

/-- An entry written through logrus: it is emitted when the logger's level is
at least the entry's level. -/
def logAt (lg : Logger) (level : Level) (msg : String) : List Event :=
  if level.toNat ≤ lg.level.toNat then [Event.log level msg] else []

/-- The function `initLogs`. The first argument is the value of
`c.String("log-format")`. -/
def initLogs (logFormat : String) (options : Options) (lg : Logger) :
    Logger × List Event :=
  let lg1 : Logger :=
    if logFormat = "simple" then { lg with formatter := .simple }
    else if logFormat = "text" then { lg with formatter := .text }
    else if logFormat = "json" then { lg with formatter := .json }
    else lg
  let lg2 : Logger := { lg1 with out := .stdout }
  let (lg3, ev3) : Logger × List Event :=
    if options.Debug then
      let l : Logger := { lg2 with level := .debug }
      (l, logAt l .debug ("Loglevel set to [" ++ Level.debug.text ++ "]"))
    else (lg2, [])
  if options.Trace then
    let l : Logger := { lg3 with level := .trace }
    (l, ev3 ++ logAt l .trace ("Loglevel set to [" ++ Level.trace.text ++ "]"))
  else (lg3, ev3)

/-- The function `run`; `KubeConfig` is the package-level variable it reads. -/
def run (rt : Collaborators) (KubeConfig : String) (options : Options)
    (lg : Logger) : Outcome :=
  let ev0 := logAt lg .info "Starting controller"
  let ctx := GoContext.signalHandled .background
  let ev1 := ev0 ++ [Event.setupSignalHandler .background]
  let ev2 := ev1 ++ [Event.getConfig KubeConfig]
  match rt.GetConfig KubeConfig with
  | .error err =>
    { logger := lg, trace := ev2, stdlog := [],
      result := some ("failed to find kubeconfig: " ++ err) }
  | .ok kubeConfig =>
    let ev3 := ev2 ++ [Event.serverNew ctx kubeConfig options]
    match rt.New ctx kubeConfig options with
    | .error err =>
      { logger := lg, trace := ev3, stdlog := [],
        result := some ("failed to create harvester server: " ++ err) }
    | .ok harv =>
      { logger := lg, trace := ev3 ++ [Event.listenAndServe harv options],
        stdlog := [], result := rt.ListenAndServe harv options }

/-- The body of the profiler goroutine: the value `http.ListenAndServe`
returns, if it returns, is printed with `log.Println`. -/
def profilerGoroutine (rt : Collaborators) (addr : String) : List String :=
  match rt.httpListenAndServe addr with
  | some err => [err]
  | none => []

/-- The closure assigned to `app.Action`, over the variables the flags have
written. No flag named log-format is declared, so `c.String("log-format")`
is the empty string. -/
def action (rt : Collaborators) (g : Globals) (lg : Logger) : Outcome :=
  let launch : List Event :=
    if g.profileAddress ≠ "" then [Event.goProfiler g.profileAddress] else []
  let bg : List String :=
    if g.profileAddress ≠ "" then profilerGoroutine rt g.profileAddress else []
  let il := initLogs "" g.options lg
  let r := run rt g.KubeConfig g.options il.1
  { logger := r.logger, trace := launch ++ il.2 ++ r.trace, stdlog := bg,
    result := r.result }

/-- The variables after registration and command-line parsing. -/
def parseFlags (inp : StartupInput) : Except AppError Globals :=
  match newFlagSet inp with
  | .error e => .error e
  | .ok g0 => parseArgs inp g0

/-- The call `app.Run(os.Args)`: build the flag set, parse the command line,
serve a help or version request, check the required flags, then run the
action. -/
def appRun (rt : Collaborators) (inp : StartupInput) (lg : Logger) : AppOutcome :=
  match newFlagSet inp with
  | .error e => { logger := lg, trace := [], stdlog := [], result := some e }
  | .ok g0 =>
    match parseArgs inp g0 with
    | .error e =>
      { logger := lg, trace := [Event.showAppHelp], stdlog := [], result := some e }
    | .ok g =>
      if inp.help then
        { logger := lg, trace := [Event.showAppHelp], stdlog := [], result := none }
      else if inp.version then
        { logger := lg, trace := [Event.showVersion], stdlog := [], result := none }
      else if missingRequired inp ≠ [] then
        { logger := lg, trace := [Event.showAppHelp], stdlog := [],
          result := some (.requiredFlags (missingRequired inp)) }
      else (action rt g lg).toApp

/-- The function `main`: a non-nil error of `app.Run` is logged at the fatal
level, which ends the process with exit code 1. -/
def main (rt : Collaborators) (inp : StartupInput) (lg : Logger) : AppOutcome :=
  let r := appRun rt inp lg
  match r.result with
  | none => r
  | some err => { r with trace := r.trace ++ [Event.fatal err] }

/-! ## Observations on traces -/

/-- The event starts the profiling HTTP server. -/
def Event.isProfiler : Event → Bool
  | .goProfiler _ => true
  | _ => false

/-- The event installs the signal handler. -/
def Event.isSignalSetup : Event → Bool
  | .setupSignalHandler _ => true
  | _ => false

/-- The event is a call of `server.GetConfig`. -/
def Event.isGetConfig : Event → Bool
  | .getConfig _ => true
  | _ => false

/-- The event is a call of `server.New`. -/
def Event.isServerNew : Event → Bool
  | .serverNew _ _ _ => true
  | _ => false

/-- The event is a call of the server's `ListenAndServe`. -/
def Event.isListenAndServe : Event → Bool
  | .listenAndServe _ _ => true
  | _ => false

/-- The options value an event hands to `server.New` or `ListenAndServe`. -/
def Event.handed : Event → Option Options
  | .serverNew _ _ o => some o
  | .listenAndServe _ o => some o
  | _ => none

/-- The options values handed to `server.New` and `ListenAndServe` in a trace,
in order. -/
def handedOptions (tr : List Event) : List Options :=
  tr.filterMap Event.handed

/-- Number of events of a trace that satisfy a test. -/
def calls (p : Event → Bool) (tr : List Event) : Nat :=
  (tr.filter p).length

/-- The event is a call of one of the three collaborators of `run`:
`server.GetConfig`, `server.New` or `ListenAndServe`. -/
def Event.isCollaborator (e : Event) : Bool :=
  e.isGetConfig || e.isServerNew || e.isListenAndServe

/-- The calls of the three collaborators of `run` in a trace, in order. -/
def collaboratorCalls (tr : List Event) : List Event :=
  tr.filter Event.isCollaborator

/-- Every event of the trace that satisfies `q` has a strictly earlier event
that satisfies `p`. -/
def precededBy (p q : Event → Bool) : List Event → Bool
  | [] => true
  | e :: es => if q e then false else if p e then true else precededBy p q es

/-! ## Sample inputs -/

/-- A startup input that supplies nothing. -/
def StartupInput.none : StartupInput :=
  { kubeconfigFlag := Option.none, kubeconfigEnv := Option.none,
    debugFlag := .unset, debugEnv := .unset, traceFlag := .unset, traceEnv := .unset,
    threadinessFlag := .unset, threadinessEnv := .unset,
    httpPortFlag := .unset, httpPortEnv := .unset,
    httpsPortFlag := .unset, httpsPortEnv := .unset,
    namespaceFlag := Option.none, namespaceEnv := Option.none,
    imageStorageEndpointFlag := Option.none, imageStorageEndpointEnv := Option.none,
    imageStorageAccessKeyFlag := Option.none, imageStorageAccessKeyEnv := Option.none,
    imageStorageSecretKeyFlag := Option.none, imageStorageSecretKeyEnv := Option.none,
    skipAuthenticationFlag := .unset, skipAuthenticationEnv := .unset,
    authenticationModeFlag := Option.none, authenticationModeEnv := Option.none,
    profileListenAddressFlag := Option.none, help := false, version := false }

/-- The end-to-end input of the spec: the four required options on the command
line, everything else left out. -/
def StartupInput.sample : StartupInput :=
  { StartupInput.none with
    namespaceFlag := some "ns1",
    imageStorageEndpointFlag := some "http://s3:9000",
    imageStorageAccessKeyFlag := some "a",
    imageStorageSecretKeyFlag := some "b" }

/-- Collaborators that all succeed; the profiler keeps serving. -/
def Collaborators.healthy : Collaborators :=
  { GetConfig := fun _ => .ok ⟨1⟩,
    New := fun _ _ _ => .ok ⟨2⟩,
    ListenAndServe := fun _ _ => Option.none,
    httpListenAndServe := fun _ => Option.none }

/-- Collaborators whose `server.New` fails. -/
def Collaborators.newFails : Collaborators :=
  { Collaborators.healthy with New := fun _ _ _ => .error "boom" }

/-- The outcome of a profiler that cannot bind its address. -/
def profilerBindFails : String → Option String :=
  fun _ => some "listen tcp 127.0.0.1:6060: bind: address already in use"

/-- Input of the end-to-end scenario with the namespace supplied on the command
line as the empty string. -/
def StartupInput.emptyNamespace : StartupInput :=
  { StartupInput.sample with namespaceFlag := some "" }

/-- Input of the end-to-end scenario with threadiness 0 on the command line. -/
def StartupInput.zeroThreads : StartupInput :=
  { StartupInput.sample with threadinessFlag := .given 0 }

/-- Input of the end-to-end scenario with threadiness -3 in the environment. -/
def StartupInput.negativeThreadsEnv : StartupInput :=
  { StartupInput.sample with threadinessEnv := .given (-3) }

/-- Input of the end-to-end scenario without a storage endpoint. -/
def StartupInput.noEndpoint : StartupInput :=
  { StartupInput.sample with imageStorageEndpointFlag := Option.none }

/-- Input of the end-to-end scenario with the profiler address supplied as the
empty string. -/
def StartupInput.profilerOff : StartupInput :=
  { StartupInput.sample with profileListenAddressFlag := some "" }

/-! ## Predicates on inputs -/

/-- The source supplies nothing or a value that parses. -/
def Arg.wellFormed {α : Type} : Arg α → Bool
  | .invalid => false
  | _ => true

/-- The value a source supplies, or a fallback. -/
def Arg.getD {α : Type} (d : α) : Arg α → α
  | .given v => v
  | _ => d

/-- The value supplied for a typed flag: the command line wins over the
environment variable. -/
def supplied {α : Type} (flag env : Arg α) : Option α :=
  match flag with
  | .given v => some v
  | _ =>
    match env with
    | .given v => some v
    | _ => Option.none

/-- Every typed value of the input parses. -/
def StartupInput.wellFormed (inp : StartupInput) : Bool :=
  inp.debugEnv.wellFormed && inp.traceEnv.wellFormed && inp.threadinessEnv.wellFormed &&
  inp.httpPortEnv.wellFormed && inp.httpsPortEnv.wellFormed &&
  inp.skipAuthenticationEnv.wellFormed &&
  inp.debugFlag.wellFormed && inp.traceFlag.wellFormed && inp.threadinessFlag.wellFormed &&
  inp.httpPortFlag.wellFormed && inp.httpsPortFlag.wellFormed &&
  inp.skipAuthenticationFlag.wellFormed

/-- All four required options are supplied, by flag or environment variable. -/
def StartupInput.requiredSupplied (inp : StartupInput) : Bool :=
  isSet inp.namespaceFlag inp.namespaceEnv &&
  isSet inp.imageStorageEndpointFlag inp.imageStorageEndpointEnv &&
  isSet inp.imageStorageAccessKeyFlag inp.imageStorageAccessKeyEnv &&
  isSet inp.imageStorageSecretKeyFlag inp.imageStorageSecretKeyEnv

/-- A valid startup input: every value parses, the required options are
supplied, and neither help nor version output is requested. -/
def StartupInput.valid (inp : StartupInput) : Bool :=
  inp.wellFormed && inp.requiredSupplied && !inp.help && !inp.version

/-- The variables a well-formed input leaves behind, written out flag by flag:
command line, else environment variable, else the declared `Value`. -/
def StartupInput.globals (inp : StartupInput) : Globals :=
  { KubeConfig := setString (envString "" inp.kubeconfigEnv) inp.kubeconfigFlag,
    profileAddress := setString "127.0.0.1:6060" inp.profileListenAddressFlag,
    options :=
      { Debug := inp.debugFlag.getD (inp.debugEnv.getD false),
        Trace := inp.traceFlag.getD (inp.traceEnv.getD false),
        Threadiness := inp.threadinessFlag.getD (inp.threadinessEnv.getD 10),
        HTTPListenPort := inp.httpPortFlag.getD (inp.httpPortEnv.getD 8080),
        HTTPSListenPort := inp.httpsPortFlag.getD (inp.httpsPortEnv.getD 8443),
        Namespace := setString (envString "" inp.namespaceEnv) inp.namespaceFlag,
        ImageStorageEndpoint :=
          setString (envString "" inp.imageStorageEndpointEnv) inp.imageStorageEndpointFlag,
        ImageStorageAccessKey :=
          setString (envString "" inp.imageStorageAccessKeyEnv) inp.imageStorageAccessKeyFlag,
        ImageStorageSecretKey :=
          setString (envString "" inp.imageStorageSecretKeyEnv) inp.imageStorageSecretKeyFlag,
        SkipAuthentication :=
          inp.skipAuthenticationFlag.getD (inp.skipAuthenticationEnv.getD false) } }

/-- The event is a log entry. -/
def Event.isLog : Event → Bool
  | .log _ _ => true
  | _ => false

/-! ## Lemmas on flag parsing -/

theorem envBool_wellFormed (name : String) (a : Arg Bool) (h : a.wellFormed = true) :
    envBool name a = .ok (a.getD false) := by
  cases a <;> simp_all [envBool, Arg.getD, Arg.wellFormed]

theorem envInt_wellFormed (name : String) (d : Int) (a : Arg Int)
    (h : a.wellFormed = true) : envInt name d a = .ok (a.getD d) := by
  cases a <;> simp_all [envInt, Arg.getD, Arg.wellFormed]

theorem setTyped_wellFormed {α : Type} (cur : α) (a : Arg α) (h : a.wellFormed = true) :
    setTyped cur a = .ok (a.getD cur) := by
  cases a <;> simp_all [setTyped, Arg.getD, Arg.wellFormed]

theorem parseFlags_wellFormed (inp : StartupInput) (h : inp.wellFormed = true) :
    parseFlags inp = .ok inp.globals := by
  simp only [StartupInput.wellFormed, Bool.and_eq_true] at h
  obtain ⟨⟨⟨⟨⟨⟨⟨⟨⟨⟨⟨h1, h2⟩, h3⟩, h4⟩, h5⟩, h6⟩, h7⟩, h8⟩, h9⟩, h10⟩, h11⟩, h12⟩ := h
  simp only [parseFlags, newFlagSet, parseArgs, envBool_wellFormed _ _ h1,
    envBool_wellFormed _ _ h2, envInt_wellFormed _ _ _ h3, envInt_wellFormed _ _ _ h4,
    envInt_wellFormed _ _ _ h5, envBool_wellFormed _ _ h6, setTyped_wellFormed _ _ h7,
    setTyped_wellFormed _ _ h8, setTyped_wellFormed _ _ h9, setTyped_wellFormed _ _ h10,
    setTyped_wellFormed _ _ h11, setTyped_wellFormed _ _ h12, StartupInput.globals,
    envString]

theorem missingRequired_eq_nil (inp : StartupInput) :
    missingRequired inp = [] ↔ inp.requiredSupplied = true := by
  unfold missingRequired StartupInput.requiredSupplied
  cases isSet inp.namespaceFlag inp.namespaceEnv <;>
  cases isSet inp.imageStorageEndpointFlag inp.imageStorageEndpointEnv <;>
  cases isSet inp.imageStorageAccessKeyFlag inp.imageStorageAccessKeyEnv <;>
  cases isSet inp.imageStorageSecretKeyFlag inp.imageStorageSecretKeyEnv <;> simp

theorem appRun_valid (rt : Collaborators) (inp : StartupInput) (lg : Logger)
    (h : inp.valid = true) : appRun rt inp lg = (action rt inp.globals lg).toApp := by
  simp only [StartupInput.valid, Bool.and_eq_true, Bool.not_eq_true'] at h
  obtain ⟨⟨⟨hw, hr⟩, hh⟩, hv⟩ := h
  have hp := parseFlags_wellFormed inp hw
  have hm := (missingRequired_eq_nil inp).2 hr
  unfold parseFlags at hp
  unfold appRun
  cases h0 : newFlagSet inp with
  | error e => simp [h0] at hp
  | ok g0 =>
    simp only [h0] at hp
    simp [hp, hh, hv, hm]

theorem envBool_ok (name : String) (a : Arg Bool) (v : Bool)
    (h : envBool name a = .ok v) : a.wellFormed = true := by
  cases a <;> simp_all [envBool, Arg.wellFormed]

theorem envInt_ok (name : String) (d : Int) (a : Arg Int) (v : Int)
    (h : envInt name d a = .ok v) : a.wellFormed = true := by
  cases a <;> simp_all [envInt, Arg.wellFormed]

theorem setTyped_ok {α : Type} (cur : α) (a : Arg α) (v : α)
    (h : setTyped cur a = .ok v) : a.wellFormed = true := by
  cases a <;> simp_all [setTyped, Arg.wellFormed]

theorem newFlagSet_ok (inp : StartupInput) (g : Globals) (h : newFlagSet inp = .ok g) :
    inp.debugEnv.wellFormed = true ∧ inp.traceEnv.wellFormed = true ∧
    inp.threadinessEnv.wellFormed = true ∧ inp.httpPortEnv.wellFormed = true ∧
    inp.httpsPortEnv.wellFormed = true ∧ inp.skipAuthenticationEnv.wellFormed = true := by
  unfold newFlagSet at h
  repeat' (split at h <;> try contradiction)
  exact ⟨envBool_ok _ _ _ (by assumption), envBool_ok _ _ _ (by assumption),
    envInt_ok _ _ _ _ (by assumption), envInt_ok _ _ _ _ (by assumption),
    envInt_ok _ _ _ _ (by assumption), envBool_ok _ _ _ (by assumption)⟩

theorem parseArgs_ok (inp : StartupInput) (g0 g : Globals) (h : parseArgs inp g0 = .ok g) :
    inp.debugFlag.wellFormed = true ∧ inp.traceFlag.wellFormed = true ∧
    inp.threadinessFlag.wellFormed = true ∧ inp.httpPortFlag.wellFormed = true ∧
    inp.httpsPortFlag.wellFormed = true ∧ inp.skipAuthenticationFlag.wellFormed = true := by
  unfold parseArgs at h
  repeat' (split at h <;> try contradiction)
  exact ⟨setTyped_ok _ _ _ (by assumption), setTyped_ok _ _ _ (by assumption),
    setTyped_ok _ _ _ (by assumption), setTyped_ok _ _ _ (by assumption),
    setTyped_ok _ _ _ (by assumption), setTyped_ok _ _ _ (by assumption)⟩

theorem wellFormed_of_parse (inp : StartupInput) (g0 g : Globals)
    (h0 : newFlagSet inp = .ok g0) (h1 : parseArgs inp g0 = .ok g) :
    inp.wellFormed = true := by
  obtain ⟨a1, a2, a3, a4, a5, a6⟩ := newFlagSet_ok inp g0 h0
  obtain ⟨b1, b2, b3, b4, b5, b6⟩ := parseArgs_ok inp g0 g h1
  simp [StartupInput.wellFormed, a1, a2, a3, a4, a5, a6, b1, b2, b3, b4, b5, b6]

theorem parseFlags_ok (inp : StartupInput) (g : Globals) (h : parseFlags inp = .ok g) :
    inp.wellFormed = true ∧ g = inp.globals := by
  have hw : inp.wellFormed = true := by
    unfold parseFlags at h
    cases h0 : newFlagSet inp with
    | error e => simp [h0] at h
    | ok g0 =>
      simp only [h0] at h
      exact wellFormed_of_parse inp g0 g h0 h
  refine ⟨hw, ?_⟩
  rw [parseFlags_wellFormed inp hw] at h
  exact (Except.ok.inj h).symm

/-- Every call of `app.Run` either stops in the library, with at most a help or
version output and no subsystem touched, or is the action over the variables
of a valid input. -/
theorem appRun_cases (rt : Collaborators) (inp : StartupInput) (lg : Logger) :
    (inp.valid = false ∧
      ((appRun rt inp lg).trace = [] ∨ (appRun rt inp lg).trace = [Event.showAppHelp] ∨
        (appRun rt inp lg).trace = [Event.showVersion])) ∨
    (inp.valid = true ∧ appRun rt inp lg = (action rt inp.globals lg).toApp) := by
  cases hv : inp.valid with
  | true => exact Or.inr ⟨rfl, appRun_valid rt inp lg hv⟩
  | false =>
    refine Or.inl ⟨rfl, ?_⟩
    unfold appRun
    cases h0 : newFlagSet inp with
    | error e => simp
    | ok g0 =>
      simp only []
      cases h1 : parseArgs inp g0 with
      | error e => simp
      | ok g =>
        have hw := wellFormed_of_parse inp g0 g h0 h1
        cases hh : inp.help with
        | true => simp
        | false =>
          cases hver : inp.version with
          | true => simp
          | false =>
            by_cases hm : missingRequired inp = []
            · have hr := (missingRequired_eq_nil inp).1 hm
              simp [StartupInput.valid, hw, hr, hh, hver] at hv
            · simp [hm]

/-! ## Lemmas on traces -/

theorem logAt_isLog (lg : Logger) (l : Level) (m : String) :
    ∀ e ∈ logAt lg l m, e.isLog = true := by
  intro e he
  unfold logAt at he
  split at he
  · simp at he; subst he; rfl
  · simp at he

theorem initLogs_isLog (f : String) (o : Options) (lg : Logger) :
    ∀ e ∈ (initLogs f o lg).2, e.isLog = true := by
  intro e he
  unfold initLogs at he
  cases hd : o.Debug <;> cases ht : o.Trace <;> simp [hd, ht] at he
  · exact logAt_isLog _ _ _ e he
  · exact logAt_isLog _ _ _ e he
  · rcases he with he | he <;> exact logAt_isLog _ _ _ e he

theorem filter_logs (p : Event → Bool) (hp : ∀ e, e.isLog = true → p e = false)
    (l : List Event) (hl : ∀ e ∈ l, e.isLog = true) : l.filter p = [] := by
  rw [List.filter_eq_nil_iff]
  intro e he
  simp [hp e (hl e he)]

theorem filterMap_logs {β : Type} (f : Event → Option β)
    (hf : ∀ e, e.isLog = true → f e = none)
    (l : List Event) (hl : ∀ e ∈ l, e.isLog = true) : l.filterMap f = [] := by
  induction l with
  | nil => rfl
  | cons a t ih =>
    have ha : f a = none := hf a (hl a (List.mem_cons_self a t))
    have ht : t.filterMap f = [] := ih (fun e he => hl e (List.mem_cons_of_mem a he))
    simp [List.filterMap_cons, ha, ht]

theorem handed_of_isLog (e : Event) (h : e.isLog = true) : e.handed = none := by
  cases e <;> simp_all [Event.isLog, Event.handed]

theorem handedOptions_run (rt : Collaborators) (kc : String) (o : Options) (lg : Logger) :
    ∀ x ∈ handedOptions (run rt kc o lg).trace, x = o := by
  intro x hx
  have h0 : (logAt lg .info "Starting controller").filterMap Event.handed = [] :=
    filterMap_logs _ handed_of_isLog _ (logAt_isLog _ _ _)
  unfold run at hx
  cases hg : rt.GetConfig kc with
  | error err => simp [hg, handedOptions, List.filterMap_append, h0, Event.handed] at hx
  | ok cfg =>
    cases hn : rt.New (GoContext.signalHandled .background) cfg o with
    | error err =>
      simp [hg, hn, handedOptions, List.filterMap_append, h0, Event.handed] at hx
      exact hx
    | ok harv =>
      simp [hg, hn, handedOptions, List.filterMap_append, h0, Event.handed] at hx
      exact hx

theorem handedOptions_action (rt : Collaborators) (g : Globals) (lg : Logger) :
    ∀ x ∈ handedOptions (action rt g lg).trace, x = g.options := by
  intro x hx
  have h1 : (initLogs "" g.options lg).2.filterMap Event.handed = [] :=
    filterMap_logs _ handed_of_isLog _ (initLogs_isLog _ _ _)
  unfold action at hx
  simp only [handedOptions, List.filterMap_append, h1, List.append_nil] at hx
  have h2 : (if g.profileAddress ≠ "" then [Event.goProfiler g.profileAddress]
      else []).filterMap Event.handed = [] := by
    split <;> simp [Event.handed]
  rw [h2, List.nil_append] at hx
  exact handedOptions_run rt _ _ _ x hx

theorem envBool_error (name : String) (a : Arg Bool) (e : AppError)
    (h : envBool name a = .error e) : e = .envValue name := by
  cases a <;> simp_all [envBool]

theorem envInt_error (name : String) (d : Int) (a : Arg Int) (e : AppError)
    (h : envInt name d a = .error e) : e = .envValue name := by
  cases a <;> simp_all [envInt]

theorem setTyped_error {α : Type} (cur : α) (a : Arg α) (e : AppError)
    (h : setTyped cur a = .error e) : e = .usage := by
  cases a <;> simp_all [setTyped]

theorem newFlagSet_error (inp : StartupInput) (e : AppError)
    (h : newFlagSet inp = .error e) : ∃ name, e = .envValue name := by
  unfold newFlagSet at h
  repeat' (split at h <;> try contradiction)
  all_goals
    cases h
    first
    | exact ⟨_, envBool_error _ _ _ (by assumption)⟩
    | exact ⟨_, envInt_error _ _ _ _ (by assumption)⟩

theorem parseArgs_error (inp : StartupInput) (g0 : Globals) (e : AppError)
    (h : parseArgs inp g0 = .error e) : e = .usage := by
  unfold parseArgs at h
  repeat' (split at h <;> try contradiction)
  all_goals
    cases h
    exact setTyped_error _ _ _ (by assumption)

theorem requiredSupplied_false (inp : StartupInput)
    (h : isSet inp.namespaceFlag inp.namespaceEnv = false ∨
      isSet inp.imageStorageEndpointFlag inp.imageStorageEndpointEnv = false ∨
      isSet inp.imageStorageAccessKeyFlag inp.imageStorageAccessKeyEnv = false ∨
      isSet inp.imageStorageSecretKeyFlag inp.imageStorageSecretKeyEnv = false) :
    inp.requiredSupplied = false := by
  unfold StartupInput.requiredSupplied
  rcases h with h | h | h | h <;> simp [h]

/-- When a required flag is not set and neither help nor version is asked for,
`app.Run` returns an error of the library, never one of the action. -/
theorem appRun_result_unsupplied (rt : Collaborators) (inp : StartupInput) (lg : Logger)
    (hr : inp.requiredSupplied = false) (hh : inp.help = false) (hv : inp.version = false) :
    ∃ e, (appRun rt inp lg).result = some e ∧ ∀ m, e ≠ .action m := by
  have hm : missingRequired inp ≠ [] := by
    intro hnil
    rw [(missingRequired_eq_nil inp).1 hnil] at hr
    exact Bool.noConfusion hr
  unfold appRun
  cases h0 : newFlagSet inp with
  | error e =>
    obtain ⟨name, rfl⟩ := newFlagSet_error inp e h0
    exact ⟨_, rfl, by simp⟩
  | ok g0 =>
    simp only []
    cases h1 : parseArgs inp g0 with
    | error e =>
      have := parseArgs_error inp g0 e h1
      subst this
      exact ⟨_, rfl, by simp⟩
    | ok g =>
      refine ⟨.requiredFlags (missingRequired inp), ?_, by simp⟩
      simp [hh, hv, hm]

theorem supplied_getD {α : Type} (flag env : Arg α) (d n : α)
    (h : supplied flag env = some n) : flag.getD (env.getD d) = n := by
  cases flag <;> cases env <;> simp_all [supplied, Arg.getD]

theorem handedOptions_run_mem (rt : Collaborators) (kc : String) (o : Options) (lg : Logger)
    (cfg : RestConfig) (h : rt.GetConfig kc = .ok cfg) :
    o ∈ handedOptions (run rt kc o lg).trace := by
  unfold run
  simp only [h]
  cases hn : rt.New (GoContext.signalHandled .background) cfg o with
  | error err => simp [handedOptions, List.filterMap_append, Event.handed]
  | ok harv => simp [handedOptions, List.filterMap_append, Event.handed]

theorem handedOptions_action_mem (rt : Collaborators) (g : Globals) (lg : Logger)
    (cfg : RestConfig) (h : rt.GetConfig g.KubeConfig = .ok cfg) :
    g.options ∈ handedOptions (action rt g lg).trace := by
  have := handedOptions_run_mem rt g.KubeConfig g.options (initLogs "" g.options lg).1 cfg h
  unfold action
  simp only [handedOptions, List.filterMap_append, List.mem_append]
  exact Or.inr this

theorem handedOptions_stopped (tr : List Event)
    (h : tr = [] ∨ tr = [Event.showAppHelp] ∨ tr = [Event.showVersion]) :
    handedOptions tr = [] := by
  rcases h with h | h | h <;> subst h <;> rfl

theorem calls_logAt (p : Event → Bool) (hp : ∀ e, e.isLog = true → p e = false)
    (lg : Logger) (l : Level) (m : String) : (logAt lg l m).filter p = [] :=
  filter_logs p hp _ (logAt_isLog lg l m)

theorem isGetConfig_of_isLog (e : Event) (h : e.isLog = true) : e.isGetConfig = false := by
  cases e <;> simp_all [Event.isLog, Event.isGetConfig]

theorem isServerNew_of_isLog (e : Event) (h : e.isLog = true) : e.isServerNew = false := by
  cases e <;> simp_all [Event.isLog, Event.isServerNew]

theorem isListenAndServe_of_isLog (e : Event) (h : e.isLog = true) :
    e.isListenAndServe = false := by
  cases e <;> simp_all [Event.isLog, Event.isListenAndServe]

theorem isSignalSetup_of_isLog (e : Event) (h : e.isLog = true) :
    e.isSignalSetup = false := by
  cases e <;> simp_all [Event.isLog, Event.isSignalSetup]

theorem isProfiler_of_isLog (e : Event) (h : e.isLog = true) : e.isProfiler = false := by
  cases e <;> simp_all [Event.isLog, Event.isProfiler]

theorem isCollaborator_of_isLog (e : Event) (h : e.isLog = true) :
    e.isCollaborator = false := by
  cases e <;> simp_all [Event.isLog, Event.isCollaborator, Event.isGetConfig,
    Event.isServerNew, Event.isListenAndServe]

/-- The trace of `run` when `server.GetConfig` fails. -/
theorem run_getConfig_error (rt : Collaborators) (kc : String) (o : Options) (lg : Logger)
    (err : String) (h : rt.GetConfig kc = .error err) :
    run rt kc o lg =
      { logger := lg,
        trace := logAt lg .info "Starting controller" ++
          [Event.setupSignalHandler .background, Event.getConfig kc],
        stdlog := [], result := some ("failed to find kubeconfig: " ++ err) } := by
  simp [run, h]

/-- The trace of `run` when `server.New` fails. -/
theorem run_new_error (rt : Collaborators) (kc : String) (o : Options) (lg : Logger)
    (cfg : RestConfig) (err : String) (hg : rt.GetConfig kc = .ok cfg)
    (hn : rt.New (GoContext.signalHandled .background) cfg o = .error err) :
    run rt kc o lg =
      { logger := lg,
        trace := logAt lg .info "Starting controller" ++
          [Event.setupSignalHandler .background, Event.getConfig kc,
           Event.serverNew (GoContext.signalHandled .background) cfg o],
        stdlog := [], result := some ("failed to create harvester server: " ++ err) } := by
  simp [run, hg, hn]

/-- The trace of `run` when both `server.GetConfig` and `server.New` succeed. -/
theorem run_new_ok (rt : Collaborators) (kc : String) (o : Options) (lg : Logger)
    (cfg : RestConfig) (harv : HarvesterServer) (hg : rt.GetConfig kc = .ok cfg)
    (hn : rt.New (GoContext.signalHandled .background) cfg o = .ok harv) :
    run rt kc o lg =
      { logger := lg,
        trace := logAt lg .info "Starting controller" ++
          [Event.setupSignalHandler .background, Event.getConfig kc,
           Event.serverNew (GoContext.signalHandled .background) cfg o,
           Event.listenAndServe harv o],
        stdlog := [], result := rt.ListenAndServe harv o } := by
  simp [run, hg, hn]

theorem calls_log_append (p : Event → Bool) (hp : ∀ e, e.isLog = true → p e = false)
    (lg : Logger) (l : Level) (m : String) (t : List Event) :
    calls p (logAt lg l m ++ t) = calls p t := by
  simp [calls, List.filter_append, calls_logAt p hp]

theorem collaboratorCalls_log_append (lg : Logger) (l : Level) (m : String)
    (t : List Event) : collaboratorCalls (logAt lg l m ++ t) = collaboratorCalls t := by
  unfold collaboratorCalls
  rw [List.filter_append, calls_logAt _ isCollaborator_of_isLog, List.nil_append]

theorem cancel_not_in_logAt (lg : Logger) (l : Level) (m : String) :
    Event.cancelContext ∉ logAt lg l m := by
  intro h
  have := logAt_isLog lg l m _ h
  simp [Event.isLog] at this

/-- The trace of `run` begins with the log entry, the signal handler and the
call of `server.GetConfig`; what follows are calls of `server.New` and
`ListenAndServe` only. -/
theorem run_trace_shape (rt : Collaborators) (kc : String) (o : Options) (lg : Logger) :
    ∃ rest, (run rt kc o lg).trace = logAt lg .info "Starting controller" ++
        Event.setupSignalHandler .background :: Event.getConfig kc :: rest ∧
      ∀ e ∈ rest, e.isServerNew = true ∨ e.isListenAndServe = true := by
  cases hg : rt.GetConfig kc with
  | error e0 =>
    rw [run_getConfig_error rt kc o lg e0 hg]
    exact ⟨[], rfl, by simp⟩
  | ok cfg0 =>
    cases hn : rt.New (GoContext.signalHandled .background) cfg0 o with
    | error e0 =>
      rw [run_new_error rt kc o lg cfg0 e0 hg hn]
      exact ⟨_, rfl, by simp [Event.isServerNew]⟩
    | ok harv0 =>
      rw [run_new_ok rt kc o lg cfg0 harv0 hg hn]
      exact ⟨_, rfl, by simp [Event.isServerNew, Event.isListenAndServe]⟩

theorem precededBy_sound (p q : Event → Bool) (l : List Event)
    (h : precededBy p q l = true) :
    ∀ l1 e l2, l = l1 ++ e :: l2 → q e = true → ∃ x ∈ l1, p x = true := by
  induction l with
  | nil =>
    intro l1 e l2 hl
    simp at hl
  | cons a t ih =>
    intro l1 e l2 hl hq
    unfold precededBy at h
    cases l1 with
    | nil =>
      simp only [List.nil_append, List.cons.injEq] at hl
      rw [hl.1, hq] at h
      simp at h
    | cons b l1t =>
      simp only [List.cons_append, List.cons.injEq] at hl
      obtain ⟨hab, ht⟩ := hl
      subst hab
      cases hqa : q a with
      | true => simp [hqa] at h
      | false =>
        cases hpa : p a with
        | true => exact ⟨a, List.mem_cons_self a l1t, hpa⟩
        | false =>
          simp only [hqa, hpa, Bool.false_eq_true, if_false] at h
          obtain ⟨x, hx, hpx⟩ := ih h l1t e l2 ht hq
          exact ⟨x, List.mem_cons_of_mem a hx, hpx⟩

theorem precededBy_skip (p q : Event → Bool) (l1 l2 : List Event)
    (h : ∀ e ∈ l1, p e = false ∧ q e = false) :
    precededBy p q (l1 ++ l2) = precededBy p q l2 := by
  induction l1 with
  | nil => rfl
  | cons a t ih =>
    have ha := h a (List.mem_cons_self a t)
    have ht := ih (fun e he => h e (List.mem_cons_of_mem a he))
    have hstep : precededBy p q (a :: (t ++ l2)) = precededBy p q (t ++ l2) := by
      simp [precededBy, ha.1, ha.2]
    rw [List.cons_append, hstep, ht]

theorem launch_neutral (addr : String) :
    ∀ e ∈ (if addr ≠ "" then [Event.goProfiler addr] else []),
      e.isSignalSetup = false ∧ e.isCollaborator = false := by
  intro e he
  split at he
  · simp at he
    subst he
    exact ⟨rfl, rfl⟩
  · simp at he

theorem logs_neutral (l : List Event) (hl : ∀ e ∈ l, e.isLog = true) :
    ∀ e ∈ l, e.isSignalSetup = false ∧ e.isCollaborator = false :=
  fun e he => ⟨isSignalSetup_of_isLog e (hl e he), isCollaborator_of_isLog e (hl e he)⟩

theorem precededBy_action (rt : Collaborators) (g : Globals) (lg : Logger) :
    precededBy Event.isSignalSetup Event.isCollaborator (action rt g lg).trace = true := by
  obtain ⟨rest, hrest, _⟩ :=
    run_trace_shape rt g.KubeConfig g.options (initLogs "" g.options lg).1
  unfold action
  simp only []
  rw [hrest, List.append_assoc, precededBy_skip _ _ _ _ (launch_neutral _),
    precededBy_skip _ _ _ _ (logs_neutral _ (initLogs_isLog _ _ _)),
    precededBy_skip _ _ _ _ (logs_neutral _ (logAt_isLog _ _ _))]
  rfl

theorem calls_append (p : Event → Bool) (l1 l2 : List Event) :
    calls p (l1 ++ l2) = calls p l1 + calls p l2 := by
  simp [calls, List.filter_append]

theorem calls_logs (p : Event → Bool) (hp : ∀ e, e.isLog = true → p e = false)
    (l : List Event) (hl : ∀ e ∈ l, e.isLog = true) : calls p l = 0 := by
  simp [calls, filter_logs p hp l hl]

theorem calls_isProfiler_run (rt : Collaborators) (kc : String) (o : Options)
    (lg : Logger) : calls Event.isProfiler (run rt kc o lg).trace = 0 := by
  obtain ⟨rest, hrest, hall⟩ := run_trace_shape rt kc o lg
  rw [hrest, calls_log_append _ isProfiler_of_isLog]
  have : rest.filter Event.isProfiler = [] := by
    rw [List.filter_eq_nil_iff]
    intro e he
    rcases hall e he with h | h <;> cases e <;>
      simp_all [Event.isProfiler, Event.isServerNew, Event.isListenAndServe]
  simp [calls, List.filter_cons, Event.isProfiler, this]

theorem calls_isSignalSetup_run (rt : Collaborators) (kc : String) (o : Options)
    (lg : Logger) : calls Event.isSignalSetup (run rt kc o lg).trace = 1 := by
  obtain ⟨rest, hrest, hall⟩ := run_trace_shape rt kc o lg
  rw [hrest, calls_log_append _ isSignalSetup_of_isLog]
  have : rest.filter Event.isSignalSetup = [] := by
    rw [List.filter_eq_nil_iff]
    intro e he
    rcases hall e he with h | h <;> cases e <;>
      simp_all [Event.isSignalSetup, Event.isServerNew, Event.isListenAndServe]
  simp [calls, List.filter_cons, Event.isSignalSetup, this]

theorem setup_mem_run (rt : Collaborators) (kc : String) (o : Options) (lg : Logger) :
    Event.setupSignalHandler .background ∈ (run rt kc o lg).trace := by
  obtain ⟨rest, hrest, _⟩ := run_trace_shape rt kc o lg
  rw [hrest]
  simp

theorem run_result_independent (rt : Collaborators) (h : String → Option String)
    (kc : String) (o : Options) (lg lg2 : Logger) :
    (run { rt with httpListenAndServe := h } kc o lg).result = (run rt kc o lg2).result := by
  unfold run
  simp only []
  cases rt.GetConfig kc with
  | error e => rfl
  | ok cfg =>
    simp only []
    cases rt.New (GoContext.signalHandled .background) cfg o with
    | error e => rfl
    | ok harv => rfl

/-! ## The claims -/

/-- C1 (counterexample). With the namespace supplied on the command line as the
empty string and the other three required options supplied, the parsed
namespace is empty, yet `app.Run` returns nil and every subsystem is invoked:
the profiler, the signal handler, `server.GetConfig`, `server.New` and
`ListenAndServe` are each called once. -/
theorem empty_namespace_starts_everything :
    (parseFlags StartupInput.emptyNamespace).toOption.map (fun g => g.options.Namespace)
      = some "" ∧
    (appRun Collaborators.healthy StartupInput.emptyNamespace Logger.initial).result = none ∧
    calls Event.isProfiler
      (appRun Collaborators.healthy StartupInput.emptyNamespace Logger.initial).trace = 1 ∧
    calls Event.isSignalSetup
      (appRun Collaborators.healthy StartupInput.emptyNamespace Logger.initial).trace = 1 ∧
    calls Event.isGetConfig
      (appRun Collaborators.healthy StartupInput.emptyNamespace Logger.initial).trace = 1 ∧
    calls Event.isServerNew
      (appRun Collaborators.healthy StartupInput.emptyNamespace Logger.initial).trace = 1 ∧
    calls Event.isListenAndServe
      (appRun Collaborators.healthy StartupInput.emptyNamespace Logger.initial).trace = 1 := by
  refine ⟨rfl, rfl, rfl, rfl, rfl, rfl, rfl⟩

/-- C1 (amended). For every startup input in which at least one of namespace,
image-storage-endpoint, image-storage-access-key or image-storage-secret-key is
not supplied (neither on the command line nor through its environment
variable), no subsystem is invoked: the profiler is not started, the signal
handler is not set up, and `server.GetConfig`, `server.New` and
`ListenAndServe` are each called zero times. Unless help or version output is
requested, `app.Run` returns an error that comes from the library, and main
ends with `logrus.Fatal` of that error. -/
theorem required_unsupplied_starts_nothing (rt : Collaborators) (inp : StartupInput)
    (lg : Logger)
    (h : isSet inp.namespaceFlag inp.namespaceEnv = false ∨
      isSet inp.imageStorageEndpointFlag inp.imageStorageEndpointEnv = false ∨
      isSet inp.imageStorageAccessKeyFlag inp.imageStorageAccessKeyEnv = false ∨
      isSet inp.imageStorageSecretKeyFlag inp.imageStorageSecretKeyEnv = false) :
    calls Event.isProfiler (appRun rt inp lg).trace = 0 ∧
    calls Event.isSignalSetup (appRun rt inp lg).trace = 0 ∧
    calls Event.isGetConfig (appRun rt inp lg).trace = 0 ∧
    calls Event.isServerNew (appRun rt inp lg).trace = 0 ∧
    calls Event.isListenAndServe (appRun rt inp lg).trace = 0 ∧
    (inp.help = false → inp.version = false →
      ∃ e, (appRun rt inp lg).result = some e ∧ (∀ m, e ≠ .action m) ∧
        (main rt inp lg).trace = (appRun rt inp lg).trace ++ [Event.fatal e]) := by
  have hr := requiredSupplied_false inp h
  have hcalls : ∀ p : Event → Bool, p .showAppHelp = false → p .showVersion = false →
      calls p (appRun rt inp lg).trace = 0 := by
    intro p h1 h2
    rcases appRun_cases rt inp lg with ⟨_, ht | ht | ht⟩ | ⟨hv, _⟩
    · simp [calls, ht]
    · simp [calls, ht, h1]
    · simp [calls, ht, h2]
    · simp [StartupInput.valid, hr] at hv
  refine ⟨hcalls _ rfl rfl, hcalls _ rfl rfl, hcalls _ rfl rfl, hcalls _ rfl rfl,
    hcalls _ rfl rfl, ?_⟩
  intro hh hv
  obtain ⟨e, he, hne⟩ := appRun_result_unsupplied rt inp lg hr hh hv
  refine ⟨e, he, hne, ?_⟩
  simp [main, he]

/-- C1 (witness). The end-to-end scenario of the spec without a storage
endpoint: nothing is started and `app.Run` fails. -/
theorem required_unsupplied_starts_nothing_witness :
    isSet StartupInput.noEndpoint.imageStorageEndpointFlag
      StartupInput.noEndpoint.imageStorageEndpointEnv = false ∧
    calls Event.isProfiler
      (appRun Collaborators.healthy StartupInput.noEndpoint Logger.initial).trace = 0 ∧
    calls Event.isListenAndServe
      (appRun Collaborators.healthy StartupInput.noEndpoint Logger.initial).trace = 0 ∧
    ∃ e, (appRun Collaborators.healthy StartupInput.noEndpoint Logger.initial).result
        = some e ∧ (∀ m, e ≠ .action m) ∧
      (main Collaborators.healthy StartupInput.noEndpoint Logger.initial).trace =
        (appRun Collaborators.healthy StartupInput.noEndpoint Logger.initial).trace ++
          [Event.fatal e] :=
  ⟨by decide,
   (required_unsupplied_starts_nothing Collaborators.healthy StartupInput.noEndpoint
      Logger.initial (Or.inr (Or.inl (by decide)))).1,
   (required_unsupplied_starts_nothing Collaborators.healthy StartupInput.noEndpoint
      Logger.initial (Or.inr (Or.inl (by decide)))).2.2.2.2.1,
   (required_unsupplied_starts_nothing Collaborators.healthy StartupInput.noEndpoint
      Logger.initial (Or.inr (Or.inl (by decide)))).2.2.2.2.2 rfl rfl⟩

/-- C2 (counterexample). The end-to-end input with threadiness 0 on the command
line is valid, and both `server.New` and `ListenAndServe` receive options with
Threadiness = 0, not 10. -/
theorem zero_threadiness_is_handed_on :
    StartupInput.zeroThreads.valid = true ∧
    supplied StartupInput.zeroThreads.threadinessFlag
      StartupInput.zeroThreads.threadinessEnv = some 0 ∧
    (handedOptions
      (appRun Collaborators.healthy StartupInput.zeroThreads Logger.initial).trace).map
        (fun o => o.Threadiness) = [0, 0] := by
  refine ⟨rfl, rfl, rfl⟩

/-- C2 (amended). For every valid startup input that supplies a threadiness
value `n` (command line, else environment variable), whatever its sign, the
action runs over options with Threadiness = n: every options value handed to
`server.New` and `ListenAndServe` carries Threadiness = n, and `server.New`
receives it as soon as `server.GetConfig` succeeds. The supplied value is never
replaced by 10. -/
theorem supplied_threadiness_handed_unchanged (rt : Collaborators) (inp : StartupInput)
    (lg : Logger) (n : Int) (hv : inp.valid = true)
    (hn : supplied inp.threadinessFlag inp.threadinessEnv = some n) :
    ∃ g, parseFlags inp = .ok g ∧ g.options.Threadiness = n ∧
      appRun rt inp lg = (action rt g lg).toApp ∧
      (∀ o ∈ handedOptions (appRun rt inp lg).trace, o.Threadiness = n) ∧
      (∀ cfg, rt.GetConfig g.KubeConfig = .ok cfg →
        g.options ∈ handedOptions (appRun rt inp lg).trace) := by
  have hw : inp.wellFormed = true := by
    simp only [StartupInput.valid, Bool.and_eq_true] at hv
    exact hv.1.1.1
  have hrun := appRun_valid rt inp lg hv
  have hthr : inp.globals.options.Threadiness = n := supplied_getD _ _ 10 n hn
  refine ⟨inp.globals, parseFlags_wellFormed inp hw, hthr, hrun, ?_, ?_⟩
  · intro o ho
    rw [hrun] at ho
    rw [handedOptions_action rt inp.globals lg o ho]
    exact hthr
  · intro cfg hcfg
    rw [hrun]
    exact handedOptions_action_mem rt inp.globals lg cfg hcfg

/-- C2 (witness). Threadiness -3 from the environment variable reaches
`server.New` and `ListenAndServe` unchanged. -/
theorem supplied_threadiness_handed_unchanged_witness :
    StartupInput.negativeThreadsEnv.valid = true ∧
    supplied StartupInput.negativeThreadsEnv.threadinessFlag
      StartupInput.negativeThreadsEnv.threadinessEnv = some (-3) ∧
    ∃ g, parseFlags StartupInput.negativeThreadsEnv = .ok g ∧ g.options.Threadiness = -3 ∧
      appRun Collaborators.healthy StartupInput.negativeThreadsEnv Logger.initial =
        (action Collaborators.healthy g Logger.initial).toApp ∧
      (∀ o ∈ handedOptions
        (appRun Collaborators.healthy StartupInput.negativeThreadsEnv Logger.initial).trace,
        o.Threadiness = -3) ∧
      (∀ cfg, Collaborators.healthy.GetConfig g.KubeConfig = .ok cfg →
        g.options ∈ handedOptions
          (appRun Collaborators.healthy StartupInput.negativeThreadsEnv Logger.initial).trace) :=
  ⟨rfl, rfl,
   supplied_threadiness_handed_unchanged Collaborators.healthy
     StartupInput.negativeThreadsEnv Logger.initial (-3) rfl rfl⟩

/-- C3. For every startup input that supplies the four required options and
leaves threadiness, http-port and https-port unset (neither flag nor
environment variable): whenever flag parsing yields the variables, they carry
Threadiness = 10, HTTPListenPort = 8080 and HTTPSListenPort = 8443; every
options value handed on by `app.Run` carries these values; and when the other
values parse and neither help nor version is requested, the action does run,
handing exactly these options to `run`. -/
theorem defaults_when_unset (rt : Collaborators) (inp : StartupInput) (lg : Logger)
    (hreq : inp.requiredSupplied = true)
    (ht : inp.threadinessFlag = .unset ∧ inp.threadinessEnv = .unset)
    (hp : inp.httpPortFlag = .unset ∧ inp.httpPortEnv = .unset)
    (hs : inp.httpsPortFlag = .unset ∧ inp.httpsPortEnv = .unset) :
    (∀ g, parseFlags inp = .ok g →
      g.options.Threadiness = 10 ∧ g.options.HTTPListenPort = 8080 ∧
        g.options.HTTPSListenPort = 8443) ∧
    (∀ o ∈ handedOptions (appRun rt inp lg).trace,
      o.Threadiness = 10 ∧ o.HTTPListenPort = 8080 ∧ o.HTTPSListenPort = 8443) ∧
    (inp.wellFormed = true → inp.help = false → inp.version = false →
      ∃ g, parseFlags inp = .ok g ∧
        appRun rt inp lg = (action rt g lg).toApp ∧
        (action rt g lg).trace =
          (if g.profileAddress ≠ "" then [Event.goProfiler g.profileAddress] else []) ++
            (initLogs "" g.options lg).2 ++
            (run rt g.KubeConfig g.options (initLogs "" g.options lg).1).trace ∧
        g.options.Threadiness = 10 ∧ g.options.HTTPListenPort = 8080 ∧
        g.options.HTTPSListenPort = 8443) := by
  have hdef : inp.globals.options.Threadiness = 10 ∧
      inp.globals.options.HTTPListenPort = 8080 ∧
      inp.globals.options.HTTPSListenPort = 8443 := by
    simp [StartupInput.globals, ht.1, ht.2, hp.1, hp.2, hs.1, hs.2, Arg.getD]
  refine ⟨?_, ?_, ?_⟩
  · intro g hg
    rw [(parseFlags_ok inp g hg).2]
    exact hdef
  · intro o ho
    rcases appRun_cases rt inp lg with ⟨_, hstop⟩ | ⟨_, hrun⟩
    · rw [handedOptions_stopped _ hstop] at ho
      cases ho
    · rw [hrun] at ho
      rw [handedOptions_action rt inp.globals lg o ho]
      exact hdef
  · intro hw hh hver
    have hv : inp.valid = true := by simp [StartupInput.valid, hw, hreq, hh, hver]
    exact ⟨inp.globals, parseFlags_wellFormed inp hw, appRun_valid rt inp lg hv, rfl, hdef⟩

/-- C3 (witness). The end-to-end input of the spec runs with the defaults. -/
theorem defaults_when_unset_witness :
    StartupInput.sample.requiredSupplied = true ∧
    (∀ o ∈ handedOptions
      (appRun Collaborators.healthy StartupInput.sample Logger.initial).trace,
      o.Threadiness = 10 ∧ o.HTTPListenPort = 8080 ∧ o.HTTPSListenPort = 8443) ∧
    (handedOptions
      (appRun Collaborators.healthy StartupInput.sample Logger.initial).trace).length = 2 :=
  ⟨rfl,
   (defaults_when_unset Collaborators.healthy StartupInput.sample Logger.initial rfl
      ⟨rfl, rfl⟩ ⟨rfl, rfl⟩ ⟨rfl, rfl⟩).2.1,
   rfl⟩

/-- C4 (counterexample). When `server.New` fails, `run` returns the wrapped
error with `server.New` as its last operation: the context is not cancelled and
`ListenAndServe` was never called, so there is no listener that `run` waits
for. -/
theorem new_failure_cancels_nothing :
    (run Collaborators.newFails "" StartupInput.sample.globals.options Logger.initial).result
      = some "failed to create harvester server: boom" ∧
    (run Collaborators.newFails "" StartupInput.sample.globals.options Logger.initial).trace
      = [Event.log .info "Starting controller", Event.setupSignalHandler .background,
         Event.getConfig "",
         Event.serverNew (GoContext.signalHandled .background) ⟨1⟩
           StartupInput.sample.globals.options] ∧
    Event.cancelContext ∉
      (run Collaborators.newFails "" StartupInput.sample.globals.options Logger.initial).trace ∧
    calls Event.isListenAndServe
      (run Collaborators.newFails "" StartupInput.sample.globals.options Logger.initial).trace
      = 0 := by
  refine ⟨rfl, rfl, by decide, rfl⟩

/-- C4 (amended). If `server.New` returns an error, `run` returns at once with
that error behind the text "failed to create harvester server: ": the call of
`server.New` is the last operation of `run`, `ListenAndServe` is never called
(no listener has been started that could be waited for), and `run` does not
cancel the context. -/
theorem run_new_error_returns_at_once (rt : Collaborators) (kc : String) (o : Options)
    (lg : Logger) (cfg : RestConfig) (err : String)
    (hg : rt.GetConfig kc = .ok cfg)
    (hn : rt.New (GoContext.signalHandled .background) cfg o = .error err) :
    (run rt kc o lg).result = some ("failed to create harvester server: " ++ err) ∧
    (run rt kc o lg).trace = logAt lg .info "Starting controller" ++
      [Event.setupSignalHandler .background, Event.getConfig kc,
       Event.serverNew (GoContext.signalHandled .background) cfg o] ∧
    calls Event.isListenAndServe (run rt kc o lg).trace = 0 ∧
    Event.cancelContext ∉ (run rt kc o lg).trace := by
  rw [run_new_error rt kc o lg cfg err hg hn]
  refine ⟨rfl, rfl, ?_, ?_⟩
  · simp [calls, List.filter_append, calls_logAt _ isListenAndServe_of_isLog,
      Event.isListenAndServe]
  · simp only [List.mem_append, not_or]
    exact ⟨cancel_not_in_logAt _ _ _, by simp⟩

/-- C4 (witness). The failing `server.New` of the sample collaborators. -/
theorem run_new_error_returns_at_once_witness :
    (run Collaborators.newFails "" Options.zero Logger.initial).result
      = some ("failed to create harvester server: " ++ "boom") ∧
    (run Collaborators.newFails "" Options.zero Logger.initial).trace =
      logAt Logger.initial .info "Starting controller" ++
      [Event.setupSignalHandler .background, Event.getConfig "",
       Event.serverNew (GoContext.signalHandled .background) ⟨1⟩ Options.zero] ∧
    calls Event.isListenAndServe
      (run Collaborators.newFails "" Options.zero Logger.initial).trace = 0 ∧
    Event.cancelContext ∉ (run Collaborators.newFails "" Options.zero Logger.initial).trace :=
  run_new_error_returns_at_once Collaborators.newFails "" Options.zero Logger.initial
    ⟨1⟩ "boom" rfl rfl

/-- C8. For every combination of collaborator outcomes, `run` calls
`server.GetConfig` exactly once and `server.New` and `ListenAndServe` at most
once each, in that order, and stops at the first that fails. A GetConfig error
`e` yields "failed to find kubeconfig: " followed by `e`, with `server.New` and
`ListenAndServe` never called; a `server.New` error `e` yields "failed to create
harvester server: " followed by `e`, with `ListenAndServe` never called;
otherwise `run` returns exactly the result of `ListenAndServe`. -/
theorem run_calls_in_order_without_retry (rt : Collaborators) (kc : String) (o : Options)
    (lg : Logger) :
    calls Event.isGetConfig (run rt kc o lg).trace = 1 ∧
    calls Event.isServerNew (run rt kc o lg).trace ≤ 1 ∧
    calls Event.isListenAndServe (run rt kc o lg).trace ≤ 1 ∧
    (∀ e, rt.GetConfig kc = .error e →
      (run rt kc o lg).result = some ("failed to find kubeconfig: " ++ e) ∧
      collaboratorCalls (run rt kc o lg).trace = [Event.getConfig kc]) ∧
    (∀ cfg e, rt.GetConfig kc = .ok cfg →
      rt.New (GoContext.signalHandled .background) cfg o = .error e →
      (run rt kc o lg).result = some ("failed to create harvester server: " ++ e) ∧
      collaboratorCalls (run rt kc o lg).trace =
        [Event.getConfig kc, Event.serverNew (GoContext.signalHandled .background) cfg o]) ∧
    (∀ cfg harv, rt.GetConfig kc = .ok cfg →
      rt.New (GoContext.signalHandled .background) cfg o = .ok harv →
      (run rt kc o lg).result = rt.ListenAndServe harv o ∧
      collaboratorCalls (run rt kc o lg).trace =
        [Event.getConfig kc, Event.serverNew (GoContext.signalHandled .background) cfg o,
         Event.listenAndServe harv o]) := by
  have k1 := fun t => calls_log_append _ isGetConfig_of_isLog lg .info "Starting controller" t
  have k2 := fun t => calls_log_append _ isServerNew_of_isLog lg .info "Starting controller" t
  have k3 := fun t =>
    calls_log_append _ isListenAndServe_of_isLog lg .info "Starting controller" t
  have k4 := fun t => collaboratorCalls_log_append lg .info "Starting controller" t
  cases hg : rt.GetConfig kc with
  | error e0 =>
    rw [run_getConfig_error rt kc o lg e0 hg]
    dsimp only
    rw [k1, k2, k3, k4]
    refine ⟨rfl, by simp [calls, Event.isServerNew], by simp [calls, Event.isListenAndServe],
      ?_, ?_, ?_⟩
    · intro e he
      cases he
      exact ⟨rfl, rfl⟩
    · intro cfg e he
      cases he
    · intro cfg harv he
      cases he
  | ok cfg0 =>
    cases hn : rt.New (GoContext.signalHandled .background) cfg0 o with
    | error e0 =>
      rw [run_new_error rt kc o lg cfg0 e0 hg hn]
      dsimp only
      rw [k1, k2, k3, k4]
      refine ⟨rfl, by simp [calls, Event.isServerNew], by simp [calls, Event.isListenAndServe],
      ?_, ?_, ?_⟩
      · intro e he
        cases he
      · intro cfg e he hne
        cases he
        rw [hn] at hne
        cases hne
        exact ⟨rfl, rfl⟩
      · intro cfg harv he hne
        cases he
        rw [hn] at hne
        cases hne
    | ok harv0 =>
      rw [run_new_ok rt kc o lg cfg0 harv0 hg hn]
      dsimp only
      rw [k1, k2, k3, k4]
      refine ⟨rfl, by simp [calls, Event.isServerNew], by simp [calls, Event.isListenAndServe],
      ?_, ?_, ?_⟩
      · intro e he
        cases he
      · intro cfg e he hne
        cases he
        rw [hn] at hne
        cases hne
      · intro cfg harv he hne
        cases he
        rw [hn] at hne
        cases hne
        exact ⟨rfl, rfl⟩

/-- C8 (witness). With a failing `server.New`, `run` stops after it. -/
theorem run_calls_in_order_without_retry_witness :
    calls Event.isGetConfig
      (run Collaborators.newFails "" Options.zero Logger.initial).trace = 1 ∧
    (run Collaborators.newFails "" Options.zero Logger.initial).result =
      some ("failed to create harvester server: " ++ "boom") ∧
    collaboratorCalls (run Collaborators.newFails "" Options.zero Logger.initial).trace =
      [Event.getConfig "",
       Event.serverNew (GoContext.signalHandled .background) ⟨1⟩ Options.zero] :=
  ⟨(run_calls_in_order_without_retry Collaborators.newFails "" Options.zero
      Logger.initial).1,
   (run_calls_in_order_without_retry Collaborators.newFails "" Options.zero
      Logger.initial).2.2.2.2.1 ⟨1⟩ "boom" rfl rfl⟩

/-- C5 (counterexample). In the end-to-end scenario the action launches the
profiling server first and sets up the signal handler only afterwards, inside
`run`: the profiler launch has no earlier signal-handler event. -/
theorem profiler_launched_before_signal_handler :
    (appRun Collaborators.healthy StartupInput.sample Logger.initial).trace.take 3 =
      [Event.goProfiler "127.0.0.1:6060", Event.log .info "Starting controller",
       Event.setupSignalHandler .background] ∧
    precededBy Event.isSignalSetup Event.isProfiler
      (appRun Collaborators.healthy StartupInput.sample Logger.initial).trace = false := by
  refine ⟨rfl, rfl⟩

/-- C5 (amended). In every execution of the application action the signal
handler is set up exactly once, and before `server.GetConfig`, `server.New` and
`ListenAndServe` are called: every such call in the trace has an earlier
`SetupSignalHandler`. The profiling server, when its address is not empty, is
launched first, before the signal handler is set up. -/
theorem signal_handler_before_server_calls (rt : Collaborators) (g : Globals)
    (lg : Logger) :
    calls Event.isSignalSetup (action rt g lg).trace = 1 ∧
    (∀ l1 e l2, (action rt g lg).trace = l1 ++ e :: l2 → e.isCollaborator = true →
      ∃ x ∈ l1, x.isSignalSetup = true) ∧
    (g.profileAddress ≠ "" →
      ∃ rest, (action rt g lg).trace = Event.goProfiler g.profileAddress :: rest ∧
        Event.setupSignalHandler .background ∈ rest) := by
  refine ⟨?_, precededBy_sound _ _ _ (precededBy_action rt g lg), ?_⟩
  · unfold action
    simp only []
    rw [calls_append, calls_append, calls_isSignalSetup_run,
      calls_logs _ isSignalSetup_of_isLog _ (initLogs_isLog _ _ _)]
    split <;> rfl
  · intro hp
    refine ⟨(initLogs "" g.options lg).2 ++
      (run rt g.KubeConfig g.options (initLogs "" g.options lg).1).trace, ?_, ?_⟩
    · unfold action
      simp [hp]
    · exact List.mem_append_right _ (setup_mem_run _ _ _ _)

/-- C5 (witness). The ordering in the end-to-end scenario. -/
theorem signal_handler_before_server_calls_witness :
    StartupInput.sample.globals.profileAddress ≠ "" ∧
    ∃ rest, (action Collaborators.healthy StartupInput.sample.globals Logger.initial).trace =
        Event.goProfiler StartupInput.sample.globals.profileAddress :: rest ∧
      Event.setupSignalHandler .background ∈ rest :=
  ⟨by decide,
   (signal_handler_before_server_calls Collaborators.healthy StartupInput.sample.globals
      Logger.initial).2.2 (by decide)⟩

/-- C6 (counterexample). In the end-to-end scenario the profile listen address
is not supplied, and the action still starts the profiling server, on the
flag's default address 127.0.0.1:6060. -/
theorem profiler_starts_when_address_not_supplied :
    StartupInput.sample.profileListenAddressFlag = none ∧
    (appRun Collaborators.healthy StartupInput.sample Logger.initial).trace.head? =
      some (Event.goProfiler "127.0.0.1:6060") ∧
    calls Event.isProfiler
      (appRun Collaborators.healthy StartupInput.sample Logger.initial).trace = 1 := by
  refine ⟨rfl, rfl, rfl⟩

/-- C6 (amended). For every valid startup input: when the profile listen
address is not supplied, the address is the flag's default 127.0.0.1:6060 and
the action starts the profiling server on it; when it is supplied as a
non-empty text, the server is started on that address; the profiling server is
not started exactly when the address is supplied as the empty string. -/
theorem profiler_disabled_only_by_empty_address (rt : Collaborators) (inp : StartupInput)
    (lg : Logger) (hv : inp.valid = true) :
    (inp.profileListenAddressFlag = none →
      (appRun rt inp lg).trace.head? = some (Event.goProfiler "127.0.0.1:6060") ∧
      calls Event.isProfiler (appRun rt inp lg).trace = 1) ∧
    (∀ a, inp.profileListenAddressFlag = some a → a ≠ "" →
      (appRun rt inp lg).trace.head? = some (Event.goProfiler a) ∧
      calls Event.isProfiler (appRun rt inp lg).trace = 1) ∧
    (calls Event.isProfiler (appRun rt inp lg).trace = 0 ↔
      inp.profileListenAddressFlag = some "") := by
  have hrun := appRun_valid rt inp lg hv
  have htr : (appRun rt inp lg).trace =
      (if inp.globals.profileAddress ≠ "" then [Event.goProfiler inp.globals.profileAddress]
        else []) ++ (initLogs "" inp.globals.options lg).2 ++
        (run rt inp.globals.KubeConfig inp.globals.options
          (initLogs "" inp.globals.options lg).1).trace := by
    rw [hrun]
    rfl
  have hcalls : calls Event.isProfiler (appRun rt inp lg).trace =
      if inp.globals.profileAddress ≠ "" then 1 else 0 := by
    rw [htr, calls_append, calls_append, calls_isProfiler_run,
      calls_logs _ isProfiler_of_isLog _ (initLogs_isLog _ _ _)]
    split <;> rfl
  have haddr : inp.globals.profileAddress =
      setString "127.0.0.1:6060" inp.profileListenAddressFlag := rfl
  refine ⟨?_, ?_, ?_⟩
  · intro hnone
    have ha : inp.globals.profileAddress = "127.0.0.1:6060" := by
      rw [haddr, hnone]
      rfl
    have hne : inp.globals.profileAddress ≠ "" := by
      rw [ha]
      decide
    refine ⟨?_, ?_⟩
    · rw [htr, if_pos hne, ha]
      rfl
    · rw [hcalls, if_pos hne]
  · intro a hsome hane
    have ha : inp.globals.profileAddress = a := by
      rw [haddr, hsome]
      rfl
    have hne : inp.globals.profileAddress ≠ "" := by
      rw [ha]
      exact hane
    refine ⟨?_, ?_⟩
    · rw [htr, if_pos hne, ha]
      rfl
    · rw [hcalls, if_pos hne]
  · rw [hcalls, haddr]
    cases hf : inp.profileListenAddressFlag with
    | none => simp [setString]
    | some a =>
      by_cases hane : a = ""
      · simp [setString, hane]
      · simp [setString, hane]

/-- C6 (witness). The end-to-end scenario, which is valid and does not supply
the address, starts the profiler; the same scenario with the address supplied
as the empty string does not. -/
theorem profiler_disabled_only_by_empty_address_witness :
    StartupInput.sample.valid = true ∧
    StartupInput.sample.profileListenAddressFlag = none ∧
    ((appRun Collaborators.healthy StartupInput.sample Logger.initial).trace.head? =
      some (Event.goProfiler "127.0.0.1:6060") ∧
    calls Event.isProfiler
      (appRun Collaborators.healthy StartupInput.sample Logger.initial).trace = 1) ∧
    StartupInput.profilerOff.valid = true ∧
    calls Event.isProfiler
      (appRun Collaborators.healthy StartupInput.profilerOff Logger.initial).trace = 0 :=
  ⟨rfl, rfl,
   (profiler_disabled_only_by_empty_address Collaborators.healthy StartupInput.sample
      Logger.initial rfl).1 rfl,
   rfl,
   (profiler_disabled_only_by_empty_address Collaborators.healthy StartupInput.profilerOff
      Logger.initial rfl).2.2.2 rfl⟩

/-- C7. For every outcome `h` of the profiler's `http.ListenAndServe` (it keeps
serving, or returns any error) and every profile address, the result of the
application action equals the result of `run` on the same options, and the
operations of the action are the same as with any other profiler outcome: the
value the profiler returns is only printed by its goroutine. -/
theorem profiler_outcome_never_propagates (rt : Collaborators) (h : String → Option String)
    (g : Globals) (lg lg2 : Logger) :
    (action { rt with httpListenAndServe := h } g lg).result =
      (run rt g.KubeConfig g.options lg2).result ∧
    (action { rt with httpListenAndServe := h } g lg).trace = (action rt g lg).trace ∧
    (action { rt with httpListenAndServe := h } g lg).logger = (action rt g lg).logger ∧
    (action { rt with httpListenAndServe := h } g lg).stdlog =
      (if g.profileAddress ≠ "" then
        (match h g.profileAddress with
         | some err => [err]
         | none => [])
       else []) := by
  refine ⟨?_, rfl, rfl, rfl⟩
  unfold action
  simp only []
  exact run_result_independent rt h _ _ _ _

/-- C7 (witness). A profiler that cannot bind its address leaves the action of
the end-to-end scenario with the nil result of `run`; the failure shows up only
as a line of the goroutine. -/
theorem profiler_outcome_never_propagates_witness :
    (action { Collaborators.healthy with httpListenAndServe := profilerBindFails }
      StartupInput.sample.globals Logger.initial).result = none ∧
    (action { Collaborators.healthy with httpListenAndServe := profilerBindFails }
      StartupInput.sample.globals Logger.initial).stdlog =
      ["listen tcp 127.0.0.1:6060: bind: address already in use"] :=
  ⟨(profiler_outcome_never_propagates Collaborators.healthy profilerBindFails
      StartupInput.sample.globals Logger.initial Logger.initial).1.trans rfl,
   (profiler_outcome_never_propagates Collaborators.healthy profilerBindFails
      StartupInput.sample.globals Logger.initial Logger.initial).2.2.2.trans rfl⟩

/-- C9. For every options value, after `initLogs` the log level is Trace
whenever `options.Trace` is true (whatever `options.Debug` is), is Debug when
`options.Debug` is true and `options.Trace` is false, and is the prior level
when both are false; a run with trace enabled is never less verbose than a run
with only debug enabled. -/
theorem initLogs_level (f : String) (o : Options) (lg : Logger) :
    (o.Trace = true → (initLogs f o lg).1.level = .trace) ∧
    (o.Debug = true → o.Trace = false → (initLogs f o lg).1.level = .debug) ∧
    (o.Debug = false → o.Trace = false → (initLogs f o lg).1.level = lg.level) ∧
    (∀ (f2 : String) (o2 : Options) (lg2 : Logger), o.Trace = true → o2.Debug = true →
      o2.Trace = false →
      (initLogs f2 o2 lg2).1.level.toNat ≤ (initLogs f o lg).1.level.toNat) := by
  have h1 : o.Trace = true → (initLogs f o lg).1.level = .trace := by
    intro ht
    unfold initLogs
    cases hd : o.Debug <;> simp [ht]
  have h2 : ∀ (f2 : String) (o2 : Options) (lg2 : Logger), o2.Debug = true →
      o2.Trace = false → (initLogs f2 o2 lg2).1.level = .debug := by
    intro f2 o2 lg2 hd ht
    unfold initLogs
    simp [hd, ht]
  refine ⟨h1, h2 f o lg, ?_, ?_⟩
  · intro hd ht
    unfold initLogs
    simp only [hd, ht, Bool.false_eq_true, if_false]
    split_ifs <;> rfl
  · intro f2 o2 lg2 ht hd2 ht2
    rw [h1 ht, h2 f2 o2 lg2 hd2 ht2]
    decide

/-- C9 (witness). Trace and debug both enabled on the library's initial logger:
the level ends at Trace. -/
theorem initLogs_level_witness :
    (initLogs "" { Options.zero with Debug := true, Trace := true } Logger.initial).1.level
      = .trace :=
  (initLogs_level "" { Options.zero with Debug := true, Trace := true } Logger.initial).1 rfl

/-- C10. The value supplied for authentication-mode, by flag or by
HARVESTER_AUTHENTICATION_MODE, has no effect: two startup inputs that differ
only there yield the same variables, the same result and operations of
`app.Run`, and so the same options handed to `run`, `server.New` and
`ListenAndServe`. -/
theorem authentication_mode_has_no_effect (rt : Collaborators) (inp : StartupInput)
    (lg : Logger) (a b : Option String) :
    parseFlags { inp with authenticationModeFlag := a, authenticationModeEnv := b } =
      parseFlags inp ∧
    appRun rt { inp with authenticationModeFlag := a, authenticationModeEnv := b } lg =
      appRun rt inp lg ∧
    handedOptions
      (appRun rt { inp with authenticationModeFlag := a, authenticationModeEnv := b } lg).trace
      = handedOptions (appRun rt inp lg).trace :=
  ⟨rfl, rfl, rfl⟩

end Harvester
